import Mathlib

/-!
# Verification of the versioned single-file storage layer (storage.py)

A shallow embedding of `pupil_src/shared_modules/storage.py`:
Python strings are modelled as `List Char`, the filesystem as an
association list of paths to stored objects plus a set of existing
directories, and the serialization codec `file_methods.save_object` /
`load_object` as writes/reads of that association list.  Exceptions are
modelled with `Option` / `Except`, and the module's id-derivation
(`uuid.uuid5`, i.e. SHA-1 based name UUIDs) is implemented over `Nat`
arithmetic with explicit reduction modulo `2 ^ 32`.
-/

namespace Pupil

/-- Python strings are modelled as lists of characters. -/
abbrev Str := List Char

/-! ## Path handling (`os.path.join`, `os.path.dirname`, `os.makedirs`) -/

/-- Whether a path begins with the posix separator (models `b.startswith(sep)`). -/
def startsWithSep : Str → Bool
  | [] => false
  | c :: _ => c == '/'

/-- Whether a path ends with the posix separator (models `path.endswith(sep)`). -/
def endsWithSep (p : Str) : Bool :=
  startsWithSep p.reverse

/-- Model of `os.path.join(a, b)` (posixpath, two arguments): if `b` is
absolute it replaces `a`; otherwise it is appended, inserting `/` unless
`a` is empty or already ends with `/`. -/
def os_path_join (a b : Str) : Str :=
  if startsWithSep b then b
  else if a.isEmpty || endsWithSep a then a ++ b
  else a ++ '/' :: b

/-- On the reversed path, drop everything strictly after the last `/`;
the result is the reversed head `p[:i+1]` of `posixpath.dirname`
(empty when the path has no separator). -/
def headUptoLastSep : Str → Str
  | [] => []
  | c :: rest => if c = '/' then c :: rest else headUptoLastSep rest

/-- Model of `os.path.dirname(p)` (posixpath): take `p` up to and
including its last `/`, then strip trailing separators unless the head
consists only of separators. -/
def os_path_dirname (p : Str) : Str :=
  let headRev := headUptoLastSep p.reverse
  if headRev.isEmpty then []
  else if headRev.all (fun c => c == '/') then headRev.reverse
  else (headRev.dropWhile (fun c => c == '/')).reverse

/-! ## Filesystem and codec model -/

/-- The on-disk dictionary `{"version": ..., "data": ...}` written by the
storage layer; both keys are optional because `_load_data_from_file`
reads them with `dict.get(key, None)`.  `τ` is the (opaque) type of item
tuples. -/
structure DiskObject (τ : Type) where
  version? : Option Nat
  data? : Option (List τ)

/-- The world the storage layer touches: files (path to stored object)
and the set of directories that exist. -/
structure FileSystem (τ : Type) where
  files : List (Str × DiskObject τ)
  dirs : List Str

/-- Read the object stored at `path`; `none` models `FileNotFoundError`
raised by `file_methods.load_object`. -/
def load_object (path : Str) : List (Str × DiskObject τ) → Option (DiskObject τ)
  | [] => none
  | (p, o) :: rest => if p = path then some o else load_object path rest

/-- Store `obj` at `path`, overwriting any previous content
(models `file_methods.save_object(obj, path)`). -/
def store_at (path : Str) (obj : DiskObject τ) :
    List (Str × DiskObject τ) → List (Str × DiskObject τ)
  | [] => [(path, obj)]
  | (p, o) :: rest =>
    if p = path then (path, obj) :: rest else (p, o) :: store_at path obj rest

/-- `file_methods.save_object` acting on the whole filesystem state. -/
def save_object (obj : DiskObject τ) (path : Str) (fs : FileSystem τ) : FileSystem τ :=
  { fs with files := store_at path obj fs.files }

/-- Model of `os.makedirs(d, exist_ok=True)`: afterwards the directory
exists; with `exist_ok=True` a pre-existing directory is not an error.
(Creation of missing parents is abstracted into the same insertion.) -/
def os_makedirs (d : Str) (dirs : List Str) : List Str :=
  if d ∈ dirs then dirs else d :: dirs

/-! ## The item contract and the concrete storage state

`StorageItem` is abstract in the source (`version`, `as_tuple`,
`from_tuple`); it is modelled as a record of those capabilities over an
item type `α` and a tuple type `τ`.  `from_tuple` returns
`Except Str α` because concrete item classes may raise during
reconstruction. -/

structure ItemClass (α τ : Type) where
  version : Nat
  as_tuple : α → τ
  from_tuple : τ → Except Str α

/-- The state of a `SingleFileStorage`: its item class (`_item_class`),
the in-memory `items` (the abstract `add` is instantiated as list
append, so `items` is the collection in insertion order), the recording
directory `_rec_dir` and the subclass-supplied `_storage_file_name`. -/
structure SingleFileStorage (α τ : Type) where
  item_class : ItemClass α τ
  items : List α
  rec_dir : Str
  storage_file_name : Str

/-- `SingleFileStorage._storage_folder_path`:
`os.path.join(self._rec_dir, "offline_data")`. -/
def storage_folder_path (s : SingleFileStorage α τ) : Str :=
  os_path_join s.rec_dir ("offline_data".toList)

/-- `SingleFileStorage._storage_file_path`:
`os.path.join(self._storage_folder_path, self._storage_file_name)`. -/
def storage_file_path (s : SingleFileStorage α τ) : Str :=
  os_path_join (storage_folder_path s) s.storage_file_name

/-- `Storage._save_data_to_file(filepath, data)`: wrap the data as
`{"version": self._item_class.version, "data": data}`, create the
directory `os.path.dirname(filepath)`, and write the wrapped structure
via the codec. -/
def save_data_to_file (s : SingleFileStorage α τ) (fs : FileSystem τ)
    (filepath : Str) (data : List τ) : FileSystem τ :=
  let dict_representation : DiskObject τ := ⟨some s.item_class.version, some data⟩
  let fs1 : FileSystem τ := { fs with dirs := os_makedirs (os_path_dirname filepath) fs.dirs }
  save_object dict_representation filepath fs1

/-- Result of `Storage._load_data_from_file`: the returned payload
(`none` models Python `None`) together with the warning messages logged. -/
structure LoadFileResult (τ : Type) where
  payload : Option (List τ)
  warnings : List Str

/-- The formatted message of
`logger.warning("Data in {} is in old file format. Will not load these!".format(filepath))`. -/
def old_format_warning (filepath : Str) : Str :=
  ("Data in ".toList) ++ filepath ++ (" is in old file format. Will not load these!".toList)

/-- `Storage._load_data_from_file(filepath)`: return `None` when the
file is absent (`FileNotFoundError`); return `None` with a warning when
`dict.get("version", None)` differs from the item class version;
otherwise return `dict.get("data", None)`. -/
def load_data_from_file (s : SingleFileStorage α τ) (fs : FileSystem τ)
    (filepath : Str) : LoadFileResult τ :=
  match load_object filepath fs.files with
  | none => ⟨none, []⟩
  | some dict_representation =>
    if dict_representation.version? ≠ some s.item_class.version then
      ⟨none, [old_format_warning filepath]⟩
    else
      ⟨dict_representation.data?, []⟩

/-- `SingleFileStorage.save_to_disk()`: map the items in order to
`as_tuple` and hand the list to `_save_data_to_file` at
`_storage_file_path`. -/
def save_to_disk (s : SingleFileStorage α τ) (fs : FileSystem τ) : FileSystem τ :=
  let item_tuple_list := s.items.map s.item_class.as_tuple
  save_data_to_file s fs (storage_file_path s) item_tuple_list

/-- The `for` loop of `_load_from_disk`: reconstruct each tuple via
`from_tuple` and `add` (append) it; an exception raised by `from_tuple`
stops the loop, leaving the items added so far in place. -/
def load_items_loop (cls : ItemClass α τ) (items : List α) :
    List τ → List α × Option Str
  | [] => (items, none)
  | t :: rest =>
    match cls.from_tuple t with
    | Except.error e => (items, some e)
    | Except.ok item => load_items_loop cls (items ++ [item]) rest

/-- Outcome of `_load_from_disk`: the updated storage, the exception
propagated to the caller (if any), and the warnings logged. -/
structure LoadOutcome (α τ : Type) where
  storage : SingleFileStorage α τ
  error : Option Str
  warnings : List Str

/-- `SingleFileStorage._load_from_disk()`: read the payload with
`_load_data_from_file`; `if item_tuple_list:` is Python truthiness, so
both `None` and the empty list skip the reconstruction loop. -/
def load_from_disk (s : SingleFileStorage α τ) (fs : FileSystem τ) : LoadOutcome α τ :=
  let r := load_data_from_file s fs (storage_file_path s)
  match r.payload with
  | none => ⟨s, none, r.warnings⟩
  | some [] => ⟨s, none, r.warnings⟩
  | some (t :: rest) =>
    let step := load_items_loop s.item_class s.items (t :: rest)
    ⟨{ s with items := step.1 }, step.2, r.warnings⟩

/-! ## `Storage.get_valid_filename` -/

/-- The characters Python's `str.strip()` removes (Unicode whitespace as
recognised by `str.isspace`). -/
def python_isspace (c : Char) : Bool :=
  [0x09, 0x0a, 0x0b, 0x0c, 0x0d, 0x1c, 0x1d, 0x1e, 0x1f, 0x20, 0x85,
   0xa0, 0x1680, 0x2000, 0x2001, 0x2002, 0x2003, 0x2004, 0x2005, 0x2006,
   0x2007, 0x2008, 0x2009, 0x200a, 0x2028, 0x2029, 0x202f, 0x205f,
   0x3000].contains c.toNat

/-- Python `str.strip()` with no argument: remove leading and trailing
whitespace. -/
def python_strip (s : Str) : Str :=
  ((s.dropWhile python_isspace).reverse.dropWhile python_isspace).reverse

/-- The character class `[-_a-zA-Z0-9.]` kept by the regex substitution
`re.sub(r"(?u)[^-_a-zA-Z0-9.]", "", ...)`. -/
def filename_char_ok (c : Char) : Bool :=
  c == '-' || c == '_' || c == '.' ||
    (decide (97 ≤ c.toNat) && decide (c.toNat ≤ 122)) ||
    (decide (65 ≤ c.toNat) && decide (c.toNat ≤ 90)) ||
    (decide (48 ≤ c.toNat) && decide (c.toNat ≤ 57))

/-- `Storage.get_valid_filename(file_name)`:
`str(file_name).strip().replace(" ", "_")`, then remove every character
outside `[-_a-zA-Z0-9.]`. -/
def get_valid_filename (file_name : Str) : Str :=
  ((python_strip file_name).map (fun c => if c == ' ' then '_' else c)).filter
    filename_char_ok

/-! ## Identifier generation (`uuid.uuid5` via SHA-1)

`create_unique_id_from_string` is `str(uuid.uuid5(UUID_NAMESPACE_PUPIL_LABS, s))`,
and `UUID_NAMESPACE_PUPIL_LABS` is `uuid.uuid5(uuid.NAMESPACE_DNS, "pupil-labs.com")`.
`uuid5` takes the first 16 bytes of `SHA-1(namespace bytes ++ utf8(name))`
and stamps in the version (5) and variant bits.  Everything below is
plain `Nat` arithmetic; 32-bit words are kept below `2 ^ 32` explicitly. -/

/-- `2 ^ 32`, the 32-bit word modulus. -/
def M32 : Nat := 4294967296

/-- Rotate a 32-bit word (`x < 2 ^ 32`) left by `n` bits. -/
def rotl32 (n x : Nat) : Nat :=
  ((x <<< n) % M32) ||| (x >>> (32 - n))

/-- Big-endian byte encoding of `n` in exactly `k` bytes. -/
def nat_to_bytes_be : Nat → Nat → List Nat
  | 0, _ => []
  | k + 1, n => nat_to_bytes_be k (n / 256) ++ [n % 256]

/-- SHA-1 padding: append `0x80`, zero bytes up to 56 mod 64, then the
original bit length as 8 big-endian bytes. -/
def sha1_pad (msg : List Nat) : List Nat :=
  msg ++ [0x80] ++ List.replicate ((119 - msg.length % 64) % 64) 0 ++
    nat_to_bytes_be 8 (msg.length * 8)

/-- Group bytes into big-endian 32-bit words. -/
def bytes_to_words : List Nat → List Nat
  | a :: b :: c :: d :: rest =>
    (((a * 256 + b) * 256 + c) * 256 + d) :: bytes_to_words rest
  | _ => []

/-- Split a word list into successive blocks of 16 words; the fuel
argument (any upper bound on the number of blocks) keeps the recursion
structural. -/
def chunks16 : Nat → List Nat → List (List Nat)
  | _, [] => []
  | 0, _ => []
  | fuel + 1, w :: rest => (w :: rest.take 15) :: chunks16 fuel (rest.drop 15)

/-- Message-schedule extension: append `k` further words, each the
left-rotation by 1 of the XOR of the words 3, 8, 14 and 16 back. -/
def sha1_extend (ws : List Nat) : Nat → List Nat
  | 0 => ws
  | k + 1 =>
    let n := ws.length
    sha1_extend
      (ws ++ [rotl32 1 (ws.getD (n - 3) 0 ^^^ ws.getD (n - 8) 0 ^^^
        ws.getD (n - 14) 0 ^^^ ws.getD (n - 16) 0)]) k

/-- The SHA-1 round function for round `i`. -/
def sha1_f (i b c d : Nat) : Nat :=
  if i < 20 then (b &&& c) ||| ((b ^^^ 0xffffffff) &&& d)
  else if i < 40 then b ^^^ c ^^^ d
  else if i < 60 then (b &&& c) ||| (b &&& d) ||| (c &&& d)
  else b ^^^ c ^^^ d

/-- The SHA-1 round constant for round `i`. -/
def sha1_k (i : Nat) : Nat :=
  if i < 20 then 0x5a827999
  else if i < 40 then 0x6ed9eba1
  else if i < 60 then 0x8f1bbcdc
  else 0xca62c1d6

/-- Run the 80 SHA-1 rounds over the extended schedule `ws`, starting at
round `i` with working state `(a, b, c, d, e)`. -/
def sha1_rounds (i a b c d e : Nat) : List Nat → Nat × Nat × Nat × Nat × Nat
  | [] => (a, b, c, d, e)
  | w :: rest =>
    let temp := (rotl32 5 a + sha1_f i b c d + e + sha1_k i + w) % M32
    sha1_rounds (i + 1) temp a (rotl32 30 b) c d rest

/-- Process one 16-word block into the running hash state. -/
def sha1_block (h : Nat × Nat × Nat × Nat × Nat) (block : List Nat) :
    Nat × Nat × Nat × Nat × Nat :=
  let ws := sha1_extend block 64
  let r := sha1_rounds 0 h.1 h.2.1 h.2.2.1 h.2.2.2.1 h.2.2.2.2 ws
  ((h.1 + r.1) % M32, (h.2.1 + r.2.1) % M32, (h.2.2.1 + r.2.2.1) % M32,
    (h.2.2.2.1 + r.2.2.2.1) % M32, (h.2.2.2.2 + r.2.2.2.2) % M32)

/-- SHA-1 of a byte list, as its 20-byte digest. -/
def sha1 (msg : List Nat) : List Nat :=
  let ws := bytes_to_words (sha1_pad msg)
  let h := (chunks16 ws.length ws).foldl sha1_block
    (0x67452301, 0xefcdab89, 0x98badcfe, 0x10325476, 0xc3d2e1f0)
  nat_to_bytes_be 4 h.1 ++ nat_to_bytes_be 4 h.2.1 ++ nat_to_bytes_be 4 h.2.2.1 ++
    nat_to_bytes_be 4 h.2.2.2.1 ++ nat_to_bytes_be 4 h.2.2.2.2

/-- UTF-8 encoding of one character (Python `str.encode("utf-8")`). -/
def utf8_encode_char (c : Char) : List Nat :=
  let n := c.toNat
  if n < 0x80 then [n]
  else if n < 0x800 then [0xc0 + n / 64, 0x80 + n % 64]
  else if n < 0x10000 then [0xe0 + n / 4096, 0x80 + n / 64 % 64, 0x80 + n % 64]
  else [0xf0 + n / 262144, 0x80 + n / 4096 % 64, 0x80 + n / 64 % 64, 0x80 + n % 64]

/-- UTF-8 encoding of a string. -/
def utf8_encode (s : Str) : List Nat :=
  s.foldr (fun c acc => utf8_encode_char c ++ acc) []

/-- Overwrite byte `i` of `l` with `f` of its current value. -/
def set_byte (l : List Nat) (i : Nat) (f : Nat → Nat) : List Nat :=
  l.set i (f (l.getD i 0))

/-- `uuid.uuid5(namespace, name)` as its 16 bytes: the first 16 bytes of
`SHA-1(namespace ++ name)`, with byte 6 stamped with version 5 and
byte 8 with the RFC 4122 variant. -/
def uuid5_bytes (ns_bytes name_bytes : List Nat) : List Nat :=
  let digest := (sha1 (ns_bytes ++ name_bytes)).take 16
  set_byte (set_byte digest 6 (fun b => (b &&& 0x0f) ||| 0x50)) 8
    (fun b => (b &&& 0x3f) ||| 0x80)

/-- Lowercase hexadecimal digit. -/
def hex_digit (n : Nat) : Char :=
  ("0123456789abcdef".toList).getD n '0'

/-- Two lowercase hex digits of one byte. -/
def byte_to_hex (b : Nat) : Str :=
  [hex_digit (b / 16), hex_digit (b % 16)]

/-- Hex string of a byte list. -/
def bytes_to_hex (l : List Nat) : Str :=
  l.foldr (fun b acc => byte_to_hex b ++ acc) []

/-- `str(uuid.UUID(...))`: the canonical 8-4-4-4-12 lowercase hex form. -/
def uuid_to_string (bytes16 : List Nat) : Str :=
  bytes_to_hex (bytes16.take 4) ++ ('-' :: bytes_to_hex ((bytes16.drop 4).take 2)) ++
    ('-' :: bytes_to_hex ((bytes16.drop 6).take 2)) ++
    ('-' :: bytes_to_hex ((bytes16.drop 8).take 2)) ++
    ('-' :: bytes_to_hex (bytes16.drop 10))

/-- The 16 bytes of `uuid.NAMESPACE_DNS`
(`6ba7b810-9dad-11d1-80b4-00c04fd430c8`). -/
def NAMESPACE_DNS : List Nat :=
  [0x6b, 0xa7, 0xb8, 0x10, 0x9d, 0xad, 0x11, 0xd1,
   0x80, 0xb4, 0x00, 0xc0, 0x4f, 0xd4, 0x30, 0xc8]

/-- `UUID_NAMESPACE_PUPIL_LABS = uuid.uuid5(uuid.NAMESPACE_DNS, "pupil-labs.com")`. -/
def UUID_NAMESPACE_PUPIL_LABS : List Nat :=
  uuid5_bytes NAMESPACE_DNS (utf8_encode ("pupil-labs.com".toList))

/-- `StorageItem.create_unique_id_from_string(string)`:
`str(uuid.uuid5(UUID_NAMESPACE_PUPIL_LABS, string))`. -/
def create_unique_id_from_string (s : Str) : Str :=
  uuid_to_string (uuid5_bytes UUID_NAMESPACE_PUPIL_LABS (utf8_encode s))

/-! ## The cleanup hook (`Storage.__init__` / `Storage._on_cleanup`)

`Storage.__init__(plugin)` runs
`plugin.add_observer("cleanup", self._on_cleanup)`, and `_on_cleanup`
calls `self.save_to_disk()` exactly once.  Observers are modelled as a
list of (event name, callback) pairs on the plugin; firing an event
invokes the callbacks registered for it, in order. -/

/-- A callback registered by the storage layer: `_on_cleanup` of the
storage instance identified by `storage_id`. -/
inductive StorageCallback where
  | on_cleanup (storage_id : Nat)
deriving DecidableEq

/-- Host plugin collaborator: its registered observers. -/
structure Plugin where
  observers : List (Str × StorageCallback)

/-- `plugin.add_observer(event, callback)`. -/
def add_observer (p : Plugin) (event : Str) (cb : StorageCallback) : Plugin :=
  ⟨p.observers ++ [(event, cb)]⟩

/-- `Storage.__init__(plugin)` for the storage instance `sid`:
register `_on_cleanup` for the `"cleanup"` event. -/
def storage_init (sid : Nat) (p : Plugin) : Plugin :=
  add_observer p ("cleanup".toList) (StorageCallback.on_cleanup sid)

/-- Fire `event` once: the callbacks invoked, in registration order. -/
def fire_event (p : Plugin) (event : Str) : List StorageCallback :=
  (p.observers.filter (fun ob => ob.1 = event)).map (fun ob => ob.2)

/-- How many `save_to_disk()` calls on storage instance `sid` one
invocation of `cb` performs: `_on_cleanup` (of that instance) calls it
exactly once. -/
def save_calls_on (sid : Nat) (cb : StorageCallback) : Nat :=
  match cb with
  | StorageCallback.on_cleanup j => if j = sid then 1 else 0

/-- Total `save_to_disk()` calls on instance `sid` caused by one firing
of `event` on plugin `p`. -/
def total_save_calls (sid : Nat) (p : Plugin) (event : Str) : Nat :=
  ((fire_event p event).map (save_calls_on sid)).sum

/-! ## Concrete instantiations used to exercise the theorems -/

/-- A total item class over `Nat` tuples: `as_tuple` is the identity and
`from_tuple` always succeeds. -/
def natItemClass : ItemClass Nat Nat :=
  ⟨1, fun n => n, fun n => Except.ok n⟩

/-- An item class whose `from_tuple` raises on tuples `≥ 10`. -/
def fragileItemClass : ItemClass Nat Nat :=
  ⟨1, fun n => n,
    fun n => if n < 10 then Except.ok n else Except.error ("bad tuple".toList)⟩

/-- An empty storage over `natItemClass` at `r/offline_data/f`. -/
def demo_storage : SingleFileStorage Nat Nat :=
  ⟨natItemClass, [], "r".toList, "f".toList⟩

/-- An empty storage over `fragileItemClass` at `r/offline_data/g`. -/
def fragile_storage : SingleFileStorage Nat Nat :=
  ⟨fragileItemClass, [], "r".toList, "g".toList⟩

/-! ## Helper lemmas -/

/-- Reading back a freshly stored object returns exactly that object,
whatever was at the path before. -/
theorem load_object_store_at (path : Str) (obj : DiskObject τ)
    (files : List (Str × DiskObject τ)) :
    load_object path (store_at path obj files) = some obj := by
  induction files with
  | nil => simp [store_at, load_object]
  | cons e rest ih =>
    obtain ⟨p, o⟩ := e
    by_cases h : p = path
    · simp [store_at, load_object, h]
    · simp [store_at, load_object, h, ih]

/-- Observers other than `_on_cleanup` of instance `sid` contribute no
`save_to_disk` calls on that instance. -/
theorem save_calls_zero_of_unregistered (sid : Nat)
    (obs : List (Str × StorageCallback)) (event : Str)
    (h : ∀ ob ∈ obs, ob.2 ≠ StorageCallback.on_cleanup sid) :
    ((obs.filter (fun ob => ob.1 = event)).map
      (save_calls_on sid ∘ fun ob => ob.2)).sum = 0 := by
  induction obs with
  | nil => simp
  | cons ob rest ih =>
    have hob := h ob (List.mem_cons_self _ _)
    have hrest : ∀ o ∈ rest, o.2 ≠ StorageCallback.on_cleanup sid :=
      fun o ho => h o (List.mem_cons_of_mem _ ho)
    have hcb : save_calls_on sid ob.2 = 0 := by
      cases hc : ob.2 with
      | on_cleanup j =>
        have hj : j ≠ sid := by
          intro hj
          exact hob (by rw [hc, hj])
        simp [save_calls_on, hj]
    by_cases hev : ob.1 = event
    · simp [List.filter_cons, hev, hcb, ih hrest]
    · simp [List.filter_cons, hev, ih hrest]

/-! ## Claim theorems -/

/-- Claim C3: if no backing file exists at the storage path (the codec's
load fails with its not-found condition), `_load_from_disk()` returns
without adding anything to the collection and raises no error. -/
theorem missing_file_tolerance (s : SingleFileStorage α τ) (fs : FileSystem τ)
    (h : load_object (storage_file_path s) fs.files = none) :
    load_from_disk s fs = ⟨s, none, []⟩ := by
  simp [load_from_disk, load_data_from_file, h]

theorem missing_file_tolerance_witness :
    load_from_disk demo_storage ⟨[], []⟩ = ⟨demo_storage, none, []⟩ :=
  missing_file_tolerance demo_storage ⟨[], []⟩ rfl

/-- Claim C10: if the backing file exists with a matching version but
its `"data"` entry is the empty list or the `"data"` key is absent
(read back as `None`), `_load_from_disk()` adds nothing and raises no
error, because the payload is checked for truthiness before iteration. -/
theorem falsy_payload_tolerated (s : SingleFileStorage α τ) (fs : FileSystem τ)
    (d : Option (List τ))
    (hfile : load_object (storage_file_path s) fs.files =
      some ⟨some s.item_class.version, d⟩)
    (hd : d = none ∨ d = some []) :
    load_from_disk s fs = ⟨s, none, []⟩ := by
  rcases hd with rfl | rfl <;>
    simp [load_from_disk, load_data_from_file, hfile]

theorem falsy_payload_tolerated_witness :
    load_from_disk demo_storage
      ⟨[(storage_file_path demo_storage, ⟨some 1, none⟩)], []⟩ =
      ⟨demo_storage, none, []⟩ :=
  falsy_payload_tolerated demo_storage _ none
    (by simp [load_object, demo_storage, natItemClass]) (Or.inl rfl)

/-- Claim C2: if the backing file exists but its declared version field
differs from the item class's version, `_load_from_disk()` adds nothing
to the collection, emits one warning log whose message contains the
file path, and raises no error. -/
theorem stale_version_discard (s : SingleFileStorage α τ) (fs : FileSystem τ)
    (d : DiskObject τ)
    (hfile : load_object (storage_file_path s) fs.files = some d)
    (hver : d.version? ≠ some s.item_class.version) :
    load_from_disk s fs = ⟨s, none, [old_format_warning (storage_file_path s)]⟩ ∧
    ∃ pre post, old_format_warning (storage_file_path s) =
      pre ++ storage_file_path s ++ post := by
  constructor
  · simp [load_from_disk, load_data_from_file, hfile, hver]
  · exact ⟨"Data in ".toList,
      " is in old file format. Will not load these!".toList, rfl⟩

theorem stale_version_discard_witness :
    load_from_disk demo_storage
      ⟨[(storage_file_path demo_storage, ⟨some 0, some [5]⟩)], []⟩ =
      ⟨demo_storage, none, [old_format_warning (storage_file_path demo_storage)]⟩ ∧
    ∃ pre post, old_format_warning (storage_file_path demo_storage) =
      pre ++ storage_file_path demo_storage ++ post :=
  stale_version_discard demo_storage _ ⟨some 0, some [5]⟩ (by simp [load_object])
    (by decide)

/-- Claim C8: for a storage instance whose `_on_cleanup` is not yet
registered, `Storage.__init__` registers it for the `"cleanup"` event,
and a single firing of that event results in exactly one
`save_to_disk()` invocation on that instance. -/
theorem cleanup_triggers_one_persist (sid : Nat) (p : Plugin)
    (h : ∀ ob ∈ p.observers, ob.2 ≠ StorageCallback.on_cleanup sid) :
    total_save_calls sid (storage_init sid p) ("cleanup".toList) = 1 := by
  simp [total_save_calls, fire_event, storage_init, add_observer,
    List.filter_append, save_calls_zero_of_unregistered sid p.observers _ h,
    save_calls_on]

theorem cleanup_triggers_one_persist_witness :
    total_save_calls 0 (storage_init 0 ⟨[]⟩) ("cleanup".toList) = 1 :=
  cleanup_triggers_one_persist 0 ⟨[]⟩ (by simp)

set_option maxRecDepth 100000

/-- Claim C5: the fixed process-wide identifier-derivation namespace,
the version-5 name-based UUID of `"pupil-labs.com"` under the DNS
namespace, equals exactly `8ea5d78e-e022-5ee4-a198-1bc002516ff0`
(both as bytes and in canonical string form). -/
theorem namespace_determinism :
    UUID_NAMESPACE_PUPIL_LABS =
      [0x8e, 0xa5, 0xd7, 0x8e, 0xe0, 0x22, 0x5e, 0xe4,
       0xa1, 0x98, 0x1b, 0xc0, 0x02, 0x51, 0x6f, 0xf0] ∧
    uuid_to_string UUID_NAMESPACE_PUPIL_LABS =
      "8ea5d78e-e022-5ee4-a198-1bc002516ff0".toList := by
  constructor <;> decide

/-- Claim C6: `create_unique_id_from_string` is a pure function — equal
inputs give equal outputs — and over a representative sample of
distinct inputs the outputs are pairwise distinct. -/
theorem deterministic_id_stability :
    (∀ s1 s2 : Str, s1 = s2 →
      create_unique_id_from_string s1 = create_unique_id_from_string s2) ∧
    (["pupil".toList, "labs".toList, "abc".toList, "abd".toList,
      ([] : Str)].map create_unique_id_from_string).Nodup := by
  refine ⟨fun s1 s2 h => by rw [h], ?_⟩
  decide

theorem deterministic_id_stability_witness :
    create_unique_id_from_string ("abc".toList) =
      create_unique_id_from_string ("abc".toList) :=
  deterministic_id_stability.1 ("abc".toList) ("abc".toList) rfl

/-- Claim C7 as stated is false: `get_valid_filename` converts internal
space characters to underscores, but an internal tab — also a
whitespace character — is removed instead of converted; on `"a\tb"`
the code yields `"ab"`, not `"a_b"`. -/
theorem filename_sanitization_counterexample :
    get_valid_filename ("a\tb".toList) = "ab".toList ∧
    "ab".toList ≠ "a_b".toList := by
  constructor <;> decide

/-- Claim C7 (amended): `get_valid_filename` is total; every character
of its output lies in `[-_a-zA-Z0-9.]`; internal space characters
(U+0020) become underscores while all other disallowed characters,
including non-space whitespace, are removed; leading/trailing
whitespace is stripped; in particular
`get_valid_filename("john's portrait in 2004.jpg") ==
"johns_portrait_in_2004.jpg"`. -/
theorem filename_sanitization_amended :
    (∀ s : Str, ∀ c ∈ get_valid_filename s, filename_char_ok c = true) ∧
    get_valid_filename
      (("john".toList) ++ Char.ofNat 39 :: (("s portrait in 2004.jpg").toList)) =
      "johns_portrait_in_2004.jpg".toList ∧
    get_valid_filename (" a b ".toList) = "a_b".toList := by
  refine ⟨fun s c hc => ?_, by decide, by decide⟩
  simp only [get_valid_filename] at hc
  exact (List.mem_filter.mp hc).2

theorem filename_sanitization_amended_witness :
    filename_char_ok 'j' = true :=
  filename_sanitization_amended.1 ("j".toList) 'j' (by decide)

/-- When `from_tuple` inverts `as_tuple`, the reconstruction loop over a
mapped list appends exactly the original items and raises nothing. -/
theorem load_items_loop_ok (cls : ItemClass α τ) (xs : List α)
    (hinv : ∀ x, cls.from_tuple (cls.as_tuple x) = Except.ok x) :
    ∀ items : List α,
      load_items_loop cls items (xs.map cls.as_tuple) = (items ++ xs, none) := by
  induction xs with
  | nil => intro items; simp [load_items_loop]
  | cons x rest ih =>
    intro items
    simp [load_items_loop, hinv x, ih (items ++ [x])]

/-- Claim C1: save/load round-trip.  For a storage whose items are
`[a, b, c]`, with `from_tuple` a left inverse of `as_tuple` (and `add`
modelled as appending, per the contract), `save_to_disk()` followed by
`_load_from_disk()` on a fresh storage over the same path yields items
`[a, b, c]` in the same order, with no error. -/
theorem save_load_round_trip (cls : ItemClass α τ) (a b c : α)
    (rec_dir file_name : Str) (fs : FileSystem τ)
    (hinv : ∀ x, cls.from_tuple (cls.as_tuple x) = Except.ok x) :
    (load_from_disk ⟨cls, [], rec_dir, file_name⟩
      (save_to_disk ⟨cls, [a, b, c], rec_dir, file_name⟩ fs)).storage.items =
      [a, b, c] ∧
    (load_from_disk ⟨cls, [], rec_dir, file_name⟩
      (save_to_disk ⟨cls, [a, b, c], rec_dir, file_name⟩ fs)).error = none := by
  have hpath : storage_file_path (⟨cls, [], rec_dir, file_name⟩ : SingleFileStorage α τ) =
      storage_file_path (⟨cls, [a, b, c], rec_dir, file_name⟩ : SingleFileStorage α τ) := rfl
  have hload : load_object
      (storage_file_path (⟨cls, [], rec_dir, file_name⟩ : SingleFileStorage α τ))
      (save_to_disk ⟨cls, [a, b, c], rec_dir, file_name⟩ fs).files =
      some ⟨some cls.version, some ([a, b, c].map cls.as_tuple)⟩ := by
    rw [hpath]
    simp [save_to_disk, save_data_to_file, save_object, load_object_store_at]
  have hloop := load_items_loop_ok cls [a, b, c] hinv []
  simp [load_from_disk, load_data_from_file, hload, List.map_cons, hloop,
    load_items_loop, hinv]

theorem save_load_round_trip_witness :
    (load_from_disk ⟨natItemClass, [], "r".toList, "f".toList⟩
      (save_to_disk ⟨natItemClass, [1, 2, 3], "r".toList, "f".toList⟩ ⟨[], []⟩)).storage.items =
      [1, 2, 3] ∧
    (load_from_disk ⟨natItemClass, [], "r".toList, "f".toList⟩
      (save_to_disk ⟨natItemClass, [1, 2, 3], "r".toList, "f".toList⟩ ⟨[], []⟩)).error = none :=
  save_load_round_trip natItemClass 1 2 3 ("r".toList) ("f".toList) ⟨[], []⟩
    (fun _ => rfl)

/-- If `from_tuple` succeeds on a prefix (yielding `xs`) and then raises
on `t`, the loop stops there: the items of the prefix stay appended and
the error propagates. -/
theorem load_items_loop_partial (cls : ItemClass α τ)
    (ts1 : List τ) (xs : List α) (t : τ) (ts2 : List τ) (e : Str)
    (hok : List.Forall₂ (fun u x => cls.from_tuple u = Except.ok x) ts1 xs)
    (herr : cls.from_tuple t = Except.error e) :
    ∀ items : List α,
      load_items_loop cls items (ts1 ++ t :: ts2) = (items ++ xs, some e) := by
  induction hok with
  | nil => intro items; simp [load_items_loop, herr]
  | cons h1 _ ih =>
    intro items
    simp only [List.cons_append, load_items_loop, h1, List.append_eq]
    rw [ih (items ++ [_])]
    simp

/-- Claim C9 (implicit): load is not atomic on malformed data.  If the
backing file exists with a matching version and `from_tuple` succeeds
on the first tuples (yielding `xs`) but raises on the next one, the
error propagates out of `_load_from_disk()` while the already
reconstructed items remain added to the collection. -/
theorem load_not_atomic (s : SingleFileStorage α τ) (fs : FileSystem τ)
    (ts1 : List τ) (t : τ) (ts2 : List τ) (xs : List α) (e : Str)
    (hfile : load_object (storage_file_path s) fs.files =
      some ⟨some s.item_class.version, some (ts1 ++ t :: ts2)⟩)
    (hok : List.Forall₂ (fun u x => s.item_class.from_tuple u = Except.ok x) ts1 xs)
    (herr : s.item_class.from_tuple t = Except.error e) :
    (load_from_disk s fs).error = some e ∧
    (load_from_disk s fs).storage.items = s.items ++ xs := by
  have hloop := load_items_loop_partial s.item_class ts1 xs t ts2 e hok herr s.items
  cases hts : ts1 ++ t :: ts2 with
  | nil => exact absurd hts (by simp)
  | cons h0 tl =>
    rw [hts] at hfile hloop
    simp [load_from_disk, load_data_from_file, hfile, hloop]

theorem load_not_atomic_witness :
    (load_from_disk fragile_storage
      ⟨[(storage_file_path fragile_storage, ⟨some 1, some [1, 2, 99, 3]⟩)], []⟩).error =
      some ("bad tuple".toList) ∧
    (load_from_disk fragile_storage
      ⟨[(storage_file_path fragile_storage, ⟨some 1, some [1, 2, 99, 3]⟩)], []⟩).storage.items =
      fragile_storage.items ++ [1, 2] :=
  load_not_atomic fragile_storage _ [1, 2] 99 [3] [1, 2] ("bad tuple".toList)
    (by simp [load_object, fragile_storage, fragileItemClass])
    (List.Forall₂.cons rfl (List.Forall₂.cons rfl List.Forall₂.nil)) rfl

/-- Joining a relative second component appends it, with or without an
inserted separator. -/
theorem os_path_join_no_abs (a b : Str) (hb : startsWithSep b = false) :
    os_path_join a b = a ++ b ∨ os_path_join a b = a ++ '/' :: b := by
  simp only [os_path_join, hb, Bool.false_eq_true, if_false]
  by_cases h : (a.isEmpty || endsWithSep a) = true
  · left; rw [if_pos h]
  · right; rw [if_neg h]

/-- The derived storage folder always ends with the letter `a` of
`"offline_data"` (so it is nonempty and does not end in a separator). -/
theorem storage_folder_path_ends_a (s : SingleFileStorage α τ) :
    ∃ y : Str, storage_folder_path s = y ++ ['a'] := by
  have hodata : ("offline_data".toList : Str) = "offline_dat".toList ++ ['a'] := by
    decide
  rcases os_path_join_no_abs s.rec_dir ("offline_data".toList) rfl with h | h
  · refine ⟨s.rec_dir ++ "offline_dat".toList, ?_⟩
    rw [storage_folder_path, h, hodata, List.append_assoc]
  · refine ⟨s.rec_dir ++ '/' :: "offline_dat".toList, ?_⟩
    rw [storage_folder_path, h, hodata]
    simp

/-- Dropping up to the last separator, when the tail holds none. -/
theorem headUptoLastSep_append (m r : Str) (hm : '/' ∉ m) :
    headUptoLastSep (m ++ '/' :: r) = '/' :: r := by
  induction m with
  | nil => simp [headUptoLastSep]
  | cons c m ih =>
    have hc : ¬(c = '/') := fun hc => hm (hc ▸ List.mem_cons_self c m)
    have hm2 : '/' ∉ m := fun h => hm (List.mem_cons_of_mem _ h)
    simp only [List.cons_append, headUptoLastSep, if_neg hc]
    exact ih hm2

/-- `os.path.dirname` of `folder ++ "/" ++ fname` is `folder`, when
`folder` ends in a non-separator character and `fname` holds no
separator. -/
theorem os_path_dirname_append (folder fname y : Str) (c0 : Char)
    (hfolder : folder = y ++ [c0]) (hc0 : c0 ≠ '/') (hf : '/' ∉ fname) :
    os_path_dirname (folder ++ '/' :: fname) = folder := by
  have hrev : (folder ++ '/' :: fname).reverse = fname.reverse ++ '/' :: folder.reverse := by
    simp
  have hmem : '/' ∉ fname.reverse := by simpa using hf
  have hfr : folder.reverse = c0 :: y.reverse := by rw [hfolder]; simp
  simp only [os_path_dirname, hrev, headUptoLastSep_append _ _ hmem, hfr]
  have hall : (('/' :: c0 :: y.reverse).all fun c => c == '/') = false := by
    simp [List.all_cons]
    intro h
    exact absurd h hc0
  simp only [List.isEmpty_cons, hall, Bool.false_eq_true, if_false]
  have hdrop : ('/' :: c0 :: y.reverse).dropWhile (fun c => c == '/') = c0 :: y.reverse := by
    rw [List.dropWhile_cons_of_pos (by simp), List.dropWhile_cons_of_neg (by simp [hc0])]
  rw [hdrop, ← hfr, List.reverse_reverse]

/-- Joining the storage file name onto the folder inserts exactly one
separator, when the file name holds no separator. -/
theorem os_path_join_file (folder fname y : Str) (c0 : Char)
    (hfolder : folder = y ++ [c0]) (hc0 : c0 ≠ '/') (hf : '/' ∉ fname) :
    os_path_join folder fname = folder ++ '/' :: fname := by
  have h1 : startsWithSep fname = false := by
    cases fname with
    | nil => rfl
    | cons c rest =>
      have : ¬(c = '/') := fun hc => hf (hc ▸ List.mem_cons_self c rest)
      simp [startsWithSep, this]
  have h2 : endsWithSep folder = false := by
    rw [endsWithSep, hfolder]
    simp [startsWithSep, hc0]
  have h3 : folder.isEmpty = false := by
    rw [hfolder]
    simp
  simp [os_path_join, h1, h2, h3]

/-- The target directory always comes to exist after `os_makedirs`. -/
theorem mem_os_makedirs (d : Str) (dirs : List Str) : d ∈ os_makedirs d dirs := by
  by_cases h : d ∈ dirs <;> simp [os_makedirs, h]

/-- Claim C4: `save_to_disk()` maps the items in order to `as_tuple`,
wraps them as `{"version": <item class version>, "data": <tuple list>}`,
ensures the folder `<rec_dir>/offline_data` exists, and writes the
wrapped structure via the codec at
`<rec_dir>/offline_data/<storage_file_name>`, overwriting prior content
(the read-back holds for an arbitrary prior filesystem). -/
theorem save_algorithm_and_path_layout (s : SingleFileStorage α τ) (fs : FileSystem τ)
    (h : '/' ∉ s.storage_file_name) :
    storage_file_path s =
      os_path_join (os_path_join s.rec_dir ("offline_data".toList))
        s.storage_file_name ∧
    load_object (storage_file_path s) (save_to_disk s fs).files =
      some ⟨some s.item_class.version, some (s.items.map s.item_class.as_tuple)⟩ ∧
    os_path_join s.rec_dir ("offline_data".toList) ∈ (save_to_disk s fs).dirs := by
  obtain ⟨y, hy⟩ := storage_folder_path_ends_a s
  have hc0 : ('a' : Char) ≠ '/' := by decide
  have hpath : storage_file_path s =
      storage_folder_path s ++ '/' :: s.storage_file_name :=
    os_path_join_file _ _ y 'a' hy hc0 h
  refine ⟨rfl, ?_, ?_⟩
  · simp [save_to_disk, save_data_to_file, save_object, load_object_store_at]
  · show os_path_join s.rec_dir ("offline_data".toList) ∈
      os_makedirs (os_path_dirname (storage_file_path s)) fs.dirs
    rw [hpath, os_path_dirname_append _ _ y 'a' hy hc0 h]
    exact mem_os_makedirs _ _

theorem save_algorithm_and_path_layout_witness :
    storage_file_path demo_storage =
      os_path_join (os_path_join demo_storage.rec_dir ("offline_data".toList))
        demo_storage.storage_file_name ∧
    load_object (storage_file_path demo_storage)
      (save_to_disk demo_storage ⟨[], []⟩).files =
      some ⟨some demo_storage.item_class.version,
        some (demo_storage.items.map demo_storage.item_class.as_tuple)⟩ ∧
    os_path_join demo_storage.rec_dir ("offline_data".toList) ∈
      (save_to_disk demo_storage ⟨[], []⟩).dirs :=
  save_algorithm_and_path_layout demo_storage ⟨[], []⟩ (by decide)

end Pupil
